import Mathlib

/-!
Shallow embedding of the client-side result-fetching orchestrator of the
pyxis metasearch front end, together with proofs about the claims of its
specification.

The embedding covers:

* the pagination / retry state machine of
  `frontend/client/app/search/text/pagewrapper.tsx` (the `video` and `image`
  page wrappers share the same guard and retry-loop shape, with the same
  constants `MAX_PAGES = 10`, `MAX_RETRIES = 20`, `maxRetries = 3`);
* the debounced dual-provider suggestion engine of
  `frontend/client/app/components/searchheader.tsx` (the inline
  `fetchSuggestions` effect, lines 72-113, shared verbatim by
  `homesearchbar.tsx` lines 253-298) and its ghost-text projection
  (lines 145-147).

React `useState` hooks become record fields, effects and callbacks become
explicit state-transition functions, and network fetch outcomes are passed
in as explicit parameters (`Option` values; `none` models a failed or
rejected fetch).  JavaScript `x || d` / `x ?? d` on possibly-absent JSON
fields is modelled with `Option` and `Option.getD`.
-/

/-- Constant `TEXT_MAX_PAGES = 10` of `search/text/pagewrapper.tsx` line 15
(the video wrapper's `VIDEO_MAX_PAGES` and the image wrapper's
`IMAGE_MAX_PAGES` are also 10). -/
def TEXT_MAX_PAGES : Nat := 10

/-- Constant `MAX_RETRIES = 20` of `search/text/pagewrapper.tsx` line 53. -/
def MAX_RETRIES : Nat := 20

/-- An `/api/search` response as the page wrapper consumes it: the
`results` array and the `has_more` flag, each possibly absent from the
JSON payload (the code reads them as `data.results || []` and
`data.has_more ?? false`). -/
structure APIPage (α : Type) where
  results : Option (List α)
  has_more : Option Bool
deriving Repr, DecidableEq

/-- The component-local state of the text page wrapper: the `useState`
hooks `allResults`, `currentPage`, `hasMore`, `loadingMore`,
`loadMoreError`, `exhausted` and the ref `retryCountRef`
(`search/text/pagewrapper.tsx` lines 72-73 and 130-136). -/
structure PageState (α : Type) where
  allResults : List α
  currentPage : Nat
  hasMore : Bool
  loadingMore : Bool
  loadMoreError : Bool
  exhausted : Bool
  retryCount : Nat
deriving Repr, DecidableEq

/-- The reset effect of `search/text/pagewrapper.tsx` lines 75-83, which
runs whenever the dependency pair `[query, initialData]` changes: it zeroes
the retry counter, clears `exhausted`, replaces `allResults` with the
initial payload's results, and resets page, `hasMore` and the two
load-more flags. -/
def resetEffect (initialData : Option (APIPage α)) : PageState α :=
  { allResults := (initialData.bind APIPage.results).getD []
    currentPage := 1
    hasMore := (initialData.bind APIPage.has_more).getD false
    loadingMore := false
    loadMoreError := false
    exhausted := false
    retryCount := 0 }

/-- The page-1 sync effect of `search/text/pagewrapper.tsx` lines 138-143:
when SWR delivers `textData` while `currentPage === 1`, replace
`allResults` and `hasMore` from it; otherwise do nothing. -/
def page1SyncEffect (textData : APIPage α) (s : PageState α) : PageState α :=
  if s.currentPage = 1 then
    { s with allResults := textData.results.getD []
             hasMore := textData.has_more.getD false }
  else s

/-- The `onErrorRetry` callback of the primary (page-1) SWR fetch,
`search/text/pagewrapper.tsx` lines 93-100.  It records the retry count in
`retryCountRef`; if the count has reached `MAX_RETRIES` it marks the state
`exhausted` and schedules nothing, otherwise it schedules one `revalidate`
2000 ms later.  The second component of the result is the scheduled delay
(`none` means no further automatic attempt is scheduled). -/
def onErrorRetry (s : PageState α) (retryCount : Nat) : PageState α × Option Nat :=
  let s1 := { s with retryCount := retryCount }
  if MAX_RETRIES ≤ retryCount then ({ s1 with exhausted := true }, none)
  else (s1, some 2000)

/-- The observable outcome of one complete `loadMore()` call: the final
component state, the list of backoff waits (in ms, in order) that were
slept between attempts, and the number of network fetch attempts issued. -/
structure LoadMoreRun (α : Type) where
  state : PageState α
  delays : List Nat
  fetches : Nat
deriving Repr, DecidableEq

/-- The retry `while` loop inside `loadMore`
(`search/text/pagewrapper.tsx` lines 159-183).  `outcomes k` is the result
of the `k`-th fetch attempt (`none` = network failure or non-ok response,
which the code turns into a thrown error).  `fuel` is `maxRetries -
attempt`, so the loop guard `attempt < maxRetries` is `0 < fuel`.  On
success the new results are appended, `currentPage` becomes `nextPage` and
`hasMore` is recomputed as `(data.has_more ?? false) && nextPage <
TEXT_MAX_PAGES` (line 170).  On failure the attempt counter is
incremented first; if it has reached `maxRetries` the loop sets
`loadMoreError` and exits, otherwise it sleeps `1000 * 2 ^ attempt` ms
(with the already-incremented `attempt`, line 179) and retries. -/
def loadMoreLoop (nextPage maxRetries : Nat) (outcomes : Nat → Option (APIPage α))
    (s : PageState α) :
    Nat → Nat → List Nat → Nat → LoadMoreRun α
  | 0, _, delays, fetches => ⟨s, delays, fetches⟩
  | fuel + 1, attempt, delays, fetches =>
    match outcomes fetches with
    | some data =>
      ⟨{ s with allResults := s.allResults ++ data.results.getD []
                currentPage := nextPage
                hasMore := data.has_more.getD false && decide (nextPage < TEXT_MAX_PAGES) },
        delays, fetches + 1⟩
    | none =>
      if attempt + 1 = maxRetries then
        ⟨{ s with loadMoreError := true }, delays, fetches + 1⟩
      else
        loadMoreLoop nextPage maxRetries outcomes s fuel (attempt + 1)
          (delays ++ [1000 * 2 ^ (attempt + 1)]) (fetches + 1)

/-- The `loadMore` callback of `search/text/pagewrapper.tsx` lines
148-186.  It is a no-op returning immediately (no state change, no fetch)
when `nextPage > TEXT_MAX_PAGES || loadingMore || !hasMore`; otherwise it
sets `loadingMore`, clears `loadMoreError`, runs the retry loop with
`maxRetries = 3`, and finally clears `loadingMore`. -/
def loadMore (s : PageState α) (outcomes : Nat → Option (APIPage α)) : LoadMoreRun α :=
  if decide (TEXT_MAX_PAGES < s.currentPage + 1) || s.loadingMore || !s.hasMore then
    ⟨s, [], 0⟩
  else
    let s1 := { s with loadingMore := true, loadMoreError := false }
    let r := loadMoreLoop (s.currentPage + 1) 3 outcomes s1 3 0 [] 0
    ⟨{ r.state with loadingMore := false }, r.delays, r.fetches⟩

/-- One successful "load next page" step: a `loadMore` call whose first
fetch attempt returns the payload `p`. -/
def stepPage (s : PageState α) (p : APIPage α) : PageState α :=
  (loadMore s (fun _ => some p)).state

/-- Iterated successful page loads: fold `stepPage` over a list of page
payloads. -/
def runPages (s : PageState α) (pages : List (APIPage α)) : PageState α :=
  pages.foldl stepPage s

/-- Holds when every `loadMore` call in the run actually proceeds, i.e. at
each step the guard of `loadMore` lets the fetch happen (`currentPage + 1`
within the ceiling, no load in flight, `hasMore` true). -/
def succeedsAll : PageState α → List (APIPage α) → Bool
  | _, [] => true
  | s, p :: rest =>
    decide (s.currentPage + 1 ≤ TEXT_MAX_PAGES) && !s.loadingMore && s.hasMore
      && succeedsAll (stepPage s p) rest

/-- JavaScript `String.prototype.toLowerCase()` (ASCII range), modelled
character-wise so it computes by kernel reduction. -/
def jsToLowerCase (s : String) : String := ⟨s.data.map Char.toLower⟩

/-- JavaScript `String.prototype.trim()`: strip whitespace from both
ends. -/
def jsTrim (s : String) : String :=
  ⟨((s.data.dropWhile Char.isWhitespace).reverse.dropWhile Char.isWhitespace).reverse⟩

/-- JavaScript `s.startsWith(p)`. -/
def jsStartsWith (s p : String) : Bool := p.data.isPrefixOf s.data

/-- JavaScript `s.slice(n)` for a nonnegative index `n`. -/
def jsSlice (s : String) (n : Nat) : String := ⟨s.data.drop n⟩

/-- Truthiness of a possibly-absent JavaScript string: absent and the
empty string are falsy. -/
def jsTruthy : Option String → Bool
  | some s => !s.isEmpty
  | none => false

/-- JavaScript `o || d` for a possibly-absent string `o`: the default is
taken when `o` is absent or empty (falsy). -/
def jsOrDefault (o : Option String) (d : String) : String :=
  match o with
  | some s => if s.isEmpty then d else s
  | none => d

/-- One page of the Wikipedia prefix-search response as the code reads it
(`searchheader.tsx` lines 95-104): `title`, optional `description`,
optional `thumbnail` (modelled by its `source` URL), `fullurl`. -/
structure WikiPage where
  title : String
  description : Option String
  thumbnail : Option String
  fullurl : String
deriving Repr, DecidableEq

/-- A rich-entity suggestion as stored in component state
(`searchheader.tsx` lines 9-14). -/
structure RichSuggestion where
  title : String
  description : String
  thumbnail : Option String
  url : String
deriving Repr, DecidableEq

/-- The rich-suggestion list computed from a Wikipedia response
(`searchheader.tsx` lines 95-108): `entityData.query?.pages || []`; if the
page array is nonempty, keep the pages with a truthy `thumbnail` or
`description`, defaulting an absent/empty description; otherwise the empty
list.  `none` models a failed or shapeless response (the fetch chain's
`.catch(() => ({}))`). -/
def richFromPages (pages : Option (List WikiPage)) : List RichSuggestion :=
  let ps := pages.getD []
  if 0 < ps.length then
    (ps.filter fun p => p.thumbnail.isSome || jsTruthy p.description).map fun p =>
      { title := p.title
        description := jsOrDefault p.description "Encyclopedia entry"
        thumbnail := p.thumbnail
        url := p.fullurl }
  else []

/-- The suggestion-related component state of `searchheader.tsx`: the
input `query`, the pending debounce timer (holding the query value
captured when the timer was started; `none` when no timer is pending), the
tags (originating query values) of issued but unresolved fetch pairs, and
the two displayed suggestion lists. -/
structure SuggestState where
  query : String
  pendingTimer : Option String
  inflight : List String
  suggestions : List String
  richSuggestions : List RichSuggestion
deriving Repr, DecidableEq

/-- Events driving the suggestion engine.

* `input q`: a keystroke sets the input to `q`; the effect on `[query]`
  re-runs, clearing the previous debounce timer and starting a new one
  (`searchheader.tsx` lines 111-112).
* `debounceFire`: the pending 300 ms timer fires, running
  `fetchSuggestions` with the captured query.
* `resolveFetch tag t w`: the in-flight fetch pair tagged `tag` resolves;
  `t` is the keyword provider's payload (`none` = non-ok response or
  rejection, which the promise chain maps to `{suggestions: []}`), `w` the
  encyclopedia provider's page list (`none` = rejection or shapeless
  JSON). -/
inductive SuggestEvent
  | input (q : String)
  | debounceFire
  | resolveFetch (tag : String) (t : Option (List String)) (w : Option (List WikiPage))

/-- One transition of the suggestion engine, embedded from the
`fetchSuggestions` effect of `searchheader.tsx` lines 72-113.

* On `input q` the timer is restarted with `q` captured; nothing else
  changes synchronously.
* On `debounceFire`, `fetchSuggestions` runs with the captured query: if
  its trimmed length is `< 2` it clears both lists and returns without
  fetching (lines 74-78); otherwise it issues the fetch pair tagged with
  that query.
* On `resolveFetch`, the awaited `Promise.all` continuation runs
  `setSuggestions(textData.suggestions || [])` and the rich-page mapping
  (lines 91-108) unconditionally: the source compares nothing against the
  current input before applying the payloads. -/
def suggestStep (s : SuggestState) : SuggestEvent → SuggestState
  | .input q => { s with query := q, pendingTimer := some q }
  | .debounceFire =>
    match s.pendingTimer with
    | none => s
    | some q =>
      if (jsTrim q).length < 2 then
        { s with pendingTimer := none, suggestions := [], richSuggestions := [] }
      else
        { s with pendingTimer := none, inflight := s.inflight ++ [q] }
  | .resolveFetch tag t w =>
    if tag ∈ s.inflight then
      { s with inflight := s.inflight.erase tag
               suggestions := t.getD []
               richSuggestions := richFromPages w }
    else s

/-- The component state on mount with initial query `q0`: empty lists, the
mount run of the effect has started a debounce timer capturing `q0`. -/
def initSuggest (q0 : String) : SuggestState :=
  { query := q0
    pendingTimer := some q0
    inflight := []
    suggestions := []
    richSuggestions := [] }

/-- Run the suggestion engine over a list of events. -/
def runSuggest (s : SuggestState) (evts : List SuggestEvent) : SuggestState :=
  evts.foldl suggestStep s

/-- The ghost-text derivation of `searchheader.tsx` lines 145-147: when
the dropdown is shown, the suggestion list is nonempty, the trimmed query
is truthy and the top suggestion case-insensitively starts with the query,
the ghost string is the query followed by the top suggestion's remainder
beyond the query's length; otherwise it is empty. -/
def ghostText (showSuggestions : Bool) (suggestions : List String) (query : String) : String :=
  match suggestions with
  | [] => ""
  | top :: _ =>
    if showSuggestions && !(jsTrim query).isEmpty
        && jsStartsWith (jsToLowerCase top) (jsToLowerCase query) then
      query ++ jsSlice top query.length
    else ""

theorem loadMoreLoop_retry_exhausted {α : Type} (np mr : Nat)
    (outcomes : Nat → Option (APIPage α)) (s : PageState α) :
    ∀ fuel attempt delays fetches,
      (loadMoreLoop np mr outcomes s fuel attempt delays fetches).state.retryCount
          = s.retryCount ∧
      (loadMoreLoop np mr outcomes s fuel attempt delays fetches).state.exhausted
          = s.exhausted := by
  intro fuel
  induction fuel with
  | zero => intro attempt delays fetches; simp [loadMoreLoop]
  | succ n ih =>
    intro attempt delays fetches
    simp only [loadMoreLoop]
    cases outcomes fetches with
    | some data => simp
    | none =>
      by_cases h : attempt + 1 = mr
      · simp [h]
      · simp only [h, if_false]
        exact ih (attempt + 1) (delays ++ [1000 * 2 ^ (attempt + 1)]) (fetches + 1)

theorem loadMoreLoop_append {α : Type} (np mr : Nat)
    (outcomes : Nat → Option (APIPage α)) (s : PageState α) :
    ∀ fuel attempt delays fetches,
      ∃ t, (loadMoreLoop np mr outcomes s fuel attempt delays fetches).state.allResults
            = s.allResults ++ t := by
  intro fuel
  induction fuel with
  | zero => intro attempt delays fetches; exact ⟨[], by simp [loadMoreLoop]⟩
  | succ n ih =>
    intro attempt delays fetches
    simp only [loadMoreLoop]
    cases outcomes fetches with
    | some data => exact ⟨data.results.getD [], by simp⟩
    | none =>
      by_cases h : attempt + 1 = mr
      · exact ⟨[], by simp [h]⟩
      · simp only [h, if_false]
        exact ih (attempt + 1) (delays ++ [1000 * 2 ^ (attempt + 1)]) (fetches + 1)

theorem loadMore_retryCount {α : Type} (s : PageState α)
    (outcomes : Nat → Option (APIPage α)) :
    (loadMore s outcomes).state.retryCount = s.retryCount ∧
    (loadMore s outcomes).state.exhausted = s.exhausted := by
  unfold loadMore
  by_cases h : (decide (TEXT_MAX_PAGES < s.currentPage + 1) || s.loadingMore || !s.hasMore) = true
  · simp [h]
  · simp only [h, Bool.false_eq_true, if_false]
    have h1 := loadMoreLoop_retry_exhausted (s.currentPage + 1) 3 outcomes
      { s with loadingMore := true, loadMoreError := false } 3 0 [] 0
    simp_all

/-- C10: the page-1 sync effect replaces `allResults` and `hasMore` from a
page-1 payload exactly while `currentPage = 1`; once a later page has been
appended (`currentPage ≠ 1`) a late-arriving page-1 payload leaves the
whole state — items, `currentPage` and `hasMore` — unchanged. -/
theorem c10_page1_sync_guard {α : Type} (d : APIPage α) (s : PageState α) :
    (s.currentPage = 1 →
      page1SyncEffect d s =
        { s with allResults := d.results.getD [], hasMore := d.has_more.getD false }) ∧
    (s.currentPage ≠ 1 → page1SyncEffect d s = s) := by
  constructor
  · intro h; simp [page1SyncEffect, h]
  · intro h; simp [page1SyncEffect, h]

/-- Witness for C10 at concrete inputs: a page-1 payload replaces the
state while `currentPage = 1`, and leaves it untouched at
`currentPage = 2`. -/
theorem c10_page1_sync_guard_witness :
    page1SyncEffect ⟨some [5], some false⟩ (resetEffect (α := Nat) (some ⟨some [1, 2], some true⟩)) =
      { resetEffect (α := Nat) (some ⟨some [1, 2], some true⟩) with
          allResults := [5], hasMore := false } ∧
    page1SyncEffect ⟨some [5], some false⟩
        { resetEffect (α := Nat) none with currentPage := 2 } =
      { resetEffect (α := Nat) none with currentPage := 2 } :=
  ⟨(c10_page1_sync_guard _ _).1 rfl, (c10_page1_sync_guard _ _).2 (by decide)⟩

/-- C5: `loadMore` is a no-op — the state is returned unchanged, no
backoff wait happens and zero fetches are issued — whenever the next page
would exceed the ceiling of `TEXT_MAX_PAGES = 10`, a load is already in
flight, or `hasMore` is false; in particular once `currentPage` has
reached 10 every further call is a no-op even if `hasMore` is still
true. -/
theorem c5_loadMore_noop {α : Type} (s : PageState α)
    (outcomes : Nat → Option (APIPage α)) :
    ((TEXT_MAX_PAGES < s.currentPage + 1 ∨ s.loadingMore = true ∨ s.hasMore = false) →
      loadMore s outcomes = ⟨s, [], 0⟩) ∧
    (s.currentPage = TEXT_MAX_PAGES → loadMore s outcomes = ⟨s, [], 0⟩) := by
  constructor
  · intro h
    rcases h with h | h | h
    · simp [loadMore, h]
    · simp [loadMore, h]
    · simp [loadMore, h]
  · intro h
    have : TEXT_MAX_PAGES < s.currentPage + 1 := by omega
    simp [loadMore, this]

/-- Witness for C5: at page 10 with `hasMore` still true, `loadMore`
returns the state unchanged with no fetch. -/
theorem c5_loadMore_noop_witness :
    loadMore (⟨[0, 1], 10, true, false, false, false, 0⟩ : PageState Nat) (fun _ => some ⟨some [7], some true⟩) =
      ⟨⟨[0, 1], 10, true, false, false, false, 0⟩, [], 0⟩ :=
  (c5_loadMore_noop _ _).2 rfl

/-- C3: the primary (page-1) fetch policy.  While the retry count is below
`MAX_RETRIES = 20` each failure schedules exactly one retry a fixed
2000 ms later, independent of the attempt number; when the count reaches
20 the state becomes `exhausted` and nothing further is scheduled.  The
reset effect (which runs on a query change) sets the retry counter to 0
and clears `exhausted`; no other operation — `loadMore`, the page-1 sync
effect, or `onErrorRetry` itself on an error (count ≥ 1) — ever resets
the counter to zero. -/
theorem c3_primary_retry_policy {α : Type} (s : PageState α) (n : Nat)
    (initialData : Option (APIPage α)) (d : APIPage α)
    (outcomes : Nat → Option (APIPage α)) :
    (n < MAX_RETRIES → onErrorRetry s n = ({ s with retryCount := n }, some 2000)) ∧
    (MAX_RETRIES ≤ n →
      onErrorRetry s n = ({ s with retryCount := n, exhausted := true }, none)) ∧
    ((resetEffect initialData : PageState α).retryCount = 0 ∧
      (resetEffect initialData : PageState α).exhausted = false) ∧
    ((loadMore s outcomes).state.retryCount = s.retryCount ∧
      (page1SyncEffect d s).retryCount = s.retryCount) ∧
    (1 ≤ n → (onErrorRetry s n).1.retryCount = n ∧ n ≠ 0) := by
  refine ⟨?_, ?_, ⟨rfl, rfl⟩, ⟨(loadMore_retryCount s outcomes).1, ?_⟩, ?_⟩
  · intro h
    simp [onErrorRetry, Nat.not_le.mpr h]
  · intro h
    simp [onErrorRetry, h]
  · unfold page1SyncEffect
    by_cases h : s.currentPage = 1 <;> simp [h]
  · intro h
    constructor
    · unfold onErrorRetry
      by_cases hn : MAX_RETRIES ≤ n <;> simp [hn]
    · omega

/-- Witness for C3: at retry count 5 a 2000 ms retry is scheduled; at 20
the state is exhausted with nothing scheduled; the reset effect zeroes the
counter; an error with count 1 leaves the counter nonzero. -/
theorem c3_primary_retry_policy_witness :
    onErrorRetry (resetEffect (α := Nat) none) 5 =
      ({ resetEffect (α := Nat) none with retryCount := 5 }, some 2000) ∧
    onErrorRetry (resetEffect (α := Nat) none) 20 =
      ({ resetEffect (α := Nat) none with retryCount := 20, exhausted := true }, none) ∧
    (onErrorRetry (resetEffect (α := Nat) none) 1).1.retryCount = 1 :=
  ⟨(c3_primary_retry_policy (resetEffect none) 5 none ⟨none, none⟩ (fun _ => none)).1 (by decide),
   (c3_primary_retry_policy (resetEffect none) 20 none ⟨none, none⟩ (fun _ => none)).2.1 (by decide),
   ((c3_primary_retry_policy (resetEffect none) 1 none ⟨none, none⟩ (fun _ => none)).2.2.2.2 (by decide)).1⟩

theorem loadMore_allFail_eq {α : Type} (s : PageState α)
    (h1 : s.currentPage + 1 ≤ TEXT_MAX_PAGES) (h2 : s.loadingMore = false)
    (h3 : s.hasMore = true) :
    loadMore s (fun _ => none) =
      ⟨{ s with loadMoreError := true }, [2000, 4000], 3⟩ := by
  obtain ⟨a, cp, hm, lm, le, ex, rc⟩ := s
  simp only at h1 h2 h3
  subst h2 h3
  simp only [loadMore, Nat.not_lt.mpr h1, decide_eq_false, Bool.false_or, Bool.not_true,
    Bool.or_false, if_false]
  simp [loadMoreLoop]

/-- C6: when every upstream attempt of a page-N load fails, `loadMore`
terminates after exactly 3 fetch attempts (no infinite retry loop) in the
soft-failure state: the non-fatal `loadMoreError` flag is set and the
previously accumulated `allResults`, `currentPage` and `hasMore` are left
unchanged (and `exhausted`, the fatal flag, is untouched). -/
theorem c6_all_failures_soft_exhaustion {α : Type} (s : PageState α)
    (h1 : s.currentPage + 1 ≤ TEXT_MAX_PAGES) (h2 : s.loadingMore = false)
    (h3 : s.hasMore = true) :
    (loadMore s (fun _ => none)).state = { s with loadMoreError := true } ∧
    (loadMore s (fun _ => none)).fetches = 3 := by
  rw [loadMore_allFail_eq s h1 h2 h3]
  exact ⟨rfl, rfl⟩

/-- Witness for C6: an always-failing upstream at page 3 of 10 leaves the
accumulated items, page and `hasMore` intact and only sets
`loadMoreError`, after exactly 3 attempts. -/
theorem c6_all_failures_soft_exhaustion_witness :
    (loadMore (⟨[1, 2, 3], 3, true, false, false, false, 0⟩ : PageState Nat) (fun _ => none)).state =
      ⟨[1, 2, 3], 3, true, false, true, false, 0⟩ ∧
    (loadMore (⟨[1, 2, 3], 3, true, false, false, false, 0⟩ : PageState Nat) (fun _ => none)).fetches = 3 :=
  c6_all_failures_soft_exhaustion _ (by decide) rfl rfl

/-- C4, observed behaviour at a failing input: a page-2 load whose fetch
attempts all fail makes exactly 3 attempts and ends in the dismissible
`loadMoreError` state (not `exhausted`), but the waits slept between
consecutive attempts are 2000 ms and then 4000 ms — the code computes
`1000 * Math.pow(2, attempt)` with `attempt` already incremented
(`search/text/pagewrapper.tsx` line 179, identical in
`search/image/pagewrapper.tsx` line 177), so the 1-second first wait that
the claim and the code's own comment (line 177: "1s, 2s, 4s") promise
never occurs. -/
theorem c4_backoff_schedule_bug :
    loadMore (resetEffect (α := Nat) (some ⟨some [0], some true⟩)) (fun _ => none) =
      ⟨{ resetEffect (α := Nat) (some ⟨some [0], some true⟩) with loadMoreError := true },
        [2000, 4000], 3⟩ ∧
    ([2000, 4000] : List Nat) ≠ [1000, 2000] ∧
    ([2000, 4000] : List Nat) ≠ [1000, 2000, 4000] := by
  refine ⟨?_, by decide, by decide⟩
  exact loadMore_allFail_eq _ (by decide) rfl rfl

theorem stepPage_eq {α : Type} (s : PageState α) (p : APIPage α)
    (h1 : s.currentPage + 1 ≤ TEXT_MAX_PAGES) (h2 : s.loadingMore = false)
    (h3 : s.hasMore = true) :
    stepPage s p =
      { s with allResults := s.allResults ++ p.results.getD []
               currentPage := s.currentPage + 1
               hasMore := p.has_more.getD false && decide (s.currentPage + 1 < TEXT_MAX_PAGES)
               loadMoreError := false } := by
  obtain ⟨a, cp, hm, lm, le, ex, rc⟩ := s
  simp only at h1 h2 h3
  subst h2 h3
  simp only [stepPage, loadMore, Nat.not_lt.mpr h1, decide_eq_false, Bool.false_or,
    Bool.not_true, Bool.or_false, if_false]
  simp [loadMoreLoop]

theorem runPages_concat {α : Type} :
    ∀ (pages : List (APIPage α)) (s : PageState α),
      succeedsAll s pages = true →
      (runPages s pages).allResults =
        s.allResults ++ (pages.map fun p => p.results.getD []).flatten ∧
      (runPages s pages).currentPage = s.currentPage + pages.length := by
  intro pages
  induction pages with
  | nil => intro s _; simp [runPages]
  | cons p rest ih =>
    intro s h
    simp only [succeedsAll, Bool.and_eq_true, decide_eq_true_eq, Bool.not_eq_true'] at h
    obtain ⟨⟨⟨h1, h2⟩, h3⟩, h4⟩ := h
    have hrun : runPages s (p :: rest) = runPages (stepPage s p) rest := rfl
    obtain ⟨ihA, ihP⟩ := ih (stepPage s p) h4
    rw [hrun, ihA, ihP, stepPage_eq s p h1 h2 h3]
    constructor
    · simp [List.append_assoc]
    · simp
      omega

/-- C2 fails as stated: an operation other than a full reset can remove an
already-accumulated item.  Starting from the reset state for an initial
page-1 payload `[0]` (`currentPage` still 1), a page-1 payload `[1]`
delivered by the cache/revalidation layer replaces the item list
wholesale: item `0` was accumulated and displayed, and is gone afterwards,
yet no reset ran. -/
theorem c2_page1_replace_counterexample :
    (resetEffect (α := Nat) (some ⟨some [0], some true⟩)).allResults = [0] ∧
    (resetEffect (α := Nat) (some ⟨some [0], some true⟩)).currentPage = 1 ∧
    (page1SyncEffect ⟨some [1], some true⟩
        (resetEffect (α := Nat) (some ⟨some [0], some true⟩))).allResults = [1] ∧
    0 ∈ (resetEffect (α := Nat) (some ⟨some [0], some true⟩)).allResults ∧
    0 ∉ (page1SyncEffect ⟨some [1], some true⟩
        (resetEffect (α := Nat) (some ⟨some [0], some true⟩))).allResults := by
  decide

/-- C2 amended: for a fixed query identity, after `M` successful
`loadMore` calls starting from the reset state of an initial page-1
payload, the accumulated list equals the concatenation of the items of
pages 1 through M+1 in fetch order and `currentPage` is `M + 1`; every
`loadMore` call — successful, failed or no-op — only ever appends to the
accumulated list; and besides the full reset, the only operation that can
replace (and thereby remove or reorder) accumulated items is the page-1
cache/revalidation payload applied while `currentPage = 1`: once a later
page has been appended it leaves the state unchanged. -/
theorem c2_append_only_pagination {α : Type} (p1 : APIPage α)
    (pages : List (APIPage α))
    (h : succeedsAll (resetEffect (some p1)) pages = true) :
    (runPages (resetEffect (some p1)) pages).allResults =
      p1.results.getD [] ++ (pages.map fun p => p.results.getD []).flatten ∧
    (runPages (resetEffect (some p1)) pages).currentPage = 1 + pages.length ∧
    (∀ (s : PageState α) (outcomes : Nat → Option (APIPage α)),
      ∃ t, (loadMore s outcomes).state.allResults = s.allResults ++ t) ∧
    (∀ (s : PageState α) (d : APIPage α), s.currentPage ≠ 1 → page1SyncEffect d s = s) := by
  obtain ⟨hA, hP⟩ := runPages_concat pages (resetEffect (some p1)) h
  refine ⟨by rw [hA]; rfl, by rw [hP]; rfl, ?_, ?_⟩
  · intro s outcomes
    unfold loadMore
    by_cases hg : (decide (TEXT_MAX_PAGES < s.currentPage + 1) || s.loadingMore || !s.hasMore) = true
    · exact ⟨[], by simp [hg]⟩
    · obtain ⟨t, ht⟩ := loadMoreLoop_append (s.currentPage + 1) 3 outcomes
        { s with loadingMore := true, loadMoreError := false } 3 0 [] 0
      refine ⟨t, ?_⟩
      simp only [hg, Bool.false_eq_true, if_false]
      exact ht
  · intro s d hcp
    simp [page1SyncEffect, hcp]

/-- Witness for C2 (amended) at a concrete run: initial page `[1, 2]`,
then two successful `loadMore` calls fetching `[3]` and `[4, 5]`. -/
theorem c2_append_only_pagination_witness :
    (runPages (resetEffect (α := Nat) (some ⟨some [1, 2], some true⟩))
        [⟨some [3], some true⟩, ⟨some [4, 5], some false⟩]).allResults =
      [1, 2] ++ ([[3], [4, 5]] : List (List Nat)).flatten ∧
    (runPages (resetEffect (α := Nat) (some ⟨some [1, 2], some true⟩))
        [⟨some [3], some true⟩, ⟨some [4, 5], some false⟩]).currentPage = 1 + 2 :=
  ⟨(c2_append_only_pagination _ _ (by decide)).1,
   (c2_append_only_pagination _ _ (by decide)).2.1⟩

theorem string_append_left_ne_empty (q x : String) (hq : q ≠ "") : q ++ x ≠ "" := by
  intro h
  apply hq
  have hd : q.data ++ x.data = [] := congrArg String.data h
  have hq0 : q.data = [] := (List.append_eq_nil.mp hd).1
  cases q
  simp_all

/-- The run refuting C1: type "ab", let the debounce fire (fetch tagged
"ab" is issued), type "abc", let the debounce fire (fetch tagged "abc" is
issued), then let "abc"'s fetch resolve first and "ab"'s fetch resolve
last. -/
def c1Trace : SuggestState :=
  runSuggest (initSuggest "") [.input "ab", .debounceFire, .input "abc", .debounceFire,
    .resolveFetch "abc" (some ["abcd"]) none, .resolveFetch "ab" (some ["abz"]) none]

/-- C1 fails as stated: after the run of `c1Trace` the current input is
"abc", but the displayed suggestions are those of the stale fetch tagged
"ab" (which resolved last), not those of "abc"'s fetch — the code applies
a resolving fetch's results without comparing its originating query
against the current input. -/
theorem c1_stale_fetch_displayed_counterexample :
    c1Trace.query = "abc" ∧ c1Trace.suggestions = ["abz"] ∧
    (["abz"] : List String) ≠ ["abcd"] := by decide

/-- C1 amended: when a suggestion fetch pair resolves, its keyword and
rich-entity payloads are applied to the displayed state unconditionally —
the transition's result does not depend on whether the fetch's tag still
equals the current input, so the displayed suggestions are those of the
most recently *resolved* fetch, not necessarily of the fetch whose
originating query equals the current input.  Only the debounce timer
(which prevents a fetch from being issued for an input superseded within
the 300 ms window) limits stale results. -/
theorem c1_resolve_ignores_current_input (s : SuggestState) (tag : String)
    (t : Option (List String)) (w : Option (List WikiPage)) (h : tag ∈ s.inflight) :
    (suggestStep s (.resolveFetch tag t w)).suggestions = t.getD [] ∧
    (suggestStep s (.resolveFetch tag t w)).richSuggestions = richFromPages w ∧
    (suggestStep s (.resolveFetch tag t w)).query = s.query := by
  simp [suggestStep, h]

/-- Witness for C1 (amended): a fetch tagged "ab" resolving while the
current input is "abc" still overwrites the displayed suggestions. -/
theorem c1_resolve_ignores_current_input_witness :
    (suggestStep { initSuggest "abc" with inflight := ["ab"] }
        (.resolveFetch "ab" (some ["abz"]) none)).suggestions = ["abz"] ∧
    (suggestStep { initSuggest "abc" with inflight := ["ab"] }
        (.resolveFetch "ab" (some ["abz"]) none)).query = "abc" := by
  have h := c1_resolve_ignores_current_input { initSuggest "abc" with inflight := ["ab"] }
    "ab" (some ["abz"]) none (by decide)
  exact ⟨h.1, h.2.2⟩

/-- C7: for a resolving fetch pair, one provider's failure (`none`
payload) degrades to the empty list for that provider only and the state
machine has no error state to enter; the other provider's successful
payload is still applied, neither blocked nor cleared. -/
theorem c7_provider_failure_isolated (s : SuggestState) (tag : String)
    (t : Option (List String)) (w : Option (List WikiPage)) (h : tag ∈ s.inflight) :
    ((suggestStep s (.resolveFetch tag none w)).suggestions = [] ∧
      (suggestStep s (.resolveFetch tag none w)).richSuggestions = richFromPages w) ∧
    ((suggestStep s (.resolveFetch tag t none)).suggestions = t.getD [] ∧
      (suggestStep s (.resolveFetch tag t none)).richSuggestions = []) := by
  refine ⟨⟨?_, ?_⟩, ⟨?_, ?_⟩⟩ <;> simp [suggestStep, h, richFromPages]

/-- Witness for C7: keyword provider down, encyclopedia up — the rich
suggestion is applied and the keyword list is just empty; and the
symmetric case. -/
theorem c7_provider_failure_isolated_witness :
    ((suggestStep { initSuggest "cat" with inflight := ["cat"] }
        (.resolveFetch "cat" none (some [⟨"Cat", some "Small feline", none, "u1"⟩]))).suggestions = [] ∧
      (suggestStep { initSuggest "cat" with inflight := ["cat"] }
        (.resolveFetch "cat" none (some [⟨"Cat", some "Small feline", none, "u1"⟩]))).richSuggestions =
        [⟨"Cat", "Small feline", none, "u1"⟩]) ∧
    ((suggestStep { initSuggest "cat" with inflight := ["cat"] }
        (.resolveFetch "cat" (some ["cats", "catalog"]) none)).suggestions = ["cats", "catalog"] ∧
      (suggestStep { initSuggest "cat" with inflight := ["cat"] }
        (.resolveFetch "cat" (some ["cats", "catalog"]) none)).richSuggestions = []) := by
  have h := c7_provider_failure_isolated { initSuggest "cat" with inflight := ["cat"] }
    "cat" (some ["cats", "catalog"]) (some [⟨"Cat", some "Small feline", none, "u1"⟩]) (by decide)
  exact ⟨⟨h.1.1, h.1.2⟩, ⟨h.2.1, h.2.2⟩⟩

/-- The run refuting C8: type "ab", let the debounce fire and the fetch
resolve (suggestions displayed), then type the short input "a". -/
def c8Trace : SuggestState :=
  runSuggest (initSuggest "") [.input "ab", .debounceFire,
    .resolveFetch "ab" (some ["abc"]) none, .input "a"]

/-- C8 fails as stated: immediately after the input becomes "a" (trimmed
length 1 < 2) the suggestion list still shows "ab"'s results — the
clearing for short inputs happens inside the debounced `fetchSuggestions`
callback, so it is deferred until the ≈300 ms timer fires, not applied
synchronously with the input change. -/
theorem c8_short_input_clear_deferred_counterexample :
    c8Trace.query = "a" ∧ (jsTrim c8Trace.query).length < 2 ∧
    c8Trace.suggestions = ["abc"] ∧ c8Trace.suggestions ≠ [] := by decide

/-- C8 amended: a keystroke itself changes neither suggestion list (it
only restarts the debounce timer, capturing the new input); when the
timer fires with a captured input of trimmed length < 2 both lists are
cleared and no fetch is issued, and when it fires with trimmed length ≥ 2
a fetch pair tagged with exactly the captured (current) input is issued.
So short input clears the lists only once the debounce timer fires, and
fetches are triggered only for the input value present when the timer
fires. -/
theorem c8_debounced_clear_and_trigger (s : SuggestState) (q : String)
    (h : s.pendingTimer = some q) :
    ((jsTrim q).length < 2 →
      suggestStep s .debounceFire =
        { s with pendingTimer := none, suggestions := [], richSuggestions := [] }) ∧
    (2 ≤ (jsTrim q).length →
      suggestStep s .debounceFire =
        { s with pendingTimer := none, inflight := s.inflight ++ [q] }) ∧
    (∀ q2, (suggestStep s (.input q2)).suggestions = s.suggestions ∧
      (suggestStep s (.input q2)).richSuggestions = s.richSuggestions ∧
      (suggestStep s (.input q2)).pendingTimer = some q2 ∧
      (suggestStep s (.input q2)).query = q2) := by
  refine ⟨?_, ?_, ?_⟩
  · intro hlen
    simp [suggestStep, h, hlen]
  · intro hlen
    simp [suggestStep, h, Nat.not_lt.mpr hlen]
  · intro q2
    simp [suggestStep]

/-- Witness for C8 (amended): firing with captured input "a" clears both
lists and issues nothing; firing with captured input "ab" issues a fetch
tagged "ab". -/
theorem c8_debounced_clear_and_trigger_witness :
    suggestStep (initSuggest "a") .debounceFire =
      { initSuggest "a" with pendingTimer := none, suggestions := [], richSuggestions := [] } ∧
    suggestStep (initSuggest "ab") .debounceFire =
      { initSuggest "ab" with pendingTimer := none, inflight := ["ab"] } :=
  ⟨(c8_debounced_clear_and_trigger _ _ rfl).1 (by decide),
   (c8_debounced_clear_and_trigger _ _ rfl).2.1 (by decide)⟩

/-- C9 fails as stated: with the dropdown closed (`showSuggestions`
false), the top suggestion "cat" case-insensitively starts with the
non-blank input "ca" and yet the ghost text is empty — the derivation also
requires the dropdown-visibility flag, which the claim omits. -/
theorem c9_ghost_requires_dropdown_counterexample :
    ghostText false ["cat"] "ca" = "" ∧
    jsStartsWith (jsToLowerCase "cat") (jsToLowerCase "ca") = true ∧
    (jsTrim "ca").isEmpty = false := by decide

/-- C9 amended: the ghost text is a pure projection of current state
(`showSuggestions`, the suggestion list, the input); with the dropdown
shown it is non-empty exactly when there is a top primary suggestion that
case-insensitively starts with the current non-blank input, in which case
it is the typed input followed by the remainder of that suggestion beyond
the input's length (so the exposed hint is that remainder); otherwise —
including whenever the dropdown is hidden — it is empty. -/
theorem c9_ghost_pure_projection (top : String) (rest : List String) (q : String) :
    (ghostText true [] q = "") ∧
    ((jsTrim q).isEmpty = false →
      jsStartsWith (jsToLowerCase top) (jsToLowerCase q) = true →
      ghostText true (top :: rest) q = q ++ jsSlice top q.length ∧
      ghostText true (top :: rest) q ≠ "") ∧
    ((jsTrim q).isEmpty = true ∨ jsStartsWith (jsToLowerCase top) (jsToLowerCase q) = false →
      ghostText true (top :: rest) q = "") ∧
    (∀ (sh : Bool) (sugg : List String), sh = false → ghostText sh sugg q = "") := by
  refine ⟨rfl, ?_, ?_, ?_⟩
  · intro h1 h2
    have he : ghostText true (top :: rest) q = q ++ jsSlice top q.length := by
      simp [ghostText, h1, h2]
    refine ⟨he, ?_⟩
    rw [he]
    have hq : q ≠ "" := by
      intro hq0
      subst hq0
      exact absurd h1 (by decide)
    exact string_append_left_ne_empty q (jsSlice top q.length) hq
  · intro h
    rcases h with h | h
    · simp [ghostText, h]
    · simp [ghostText, h]
  · intro sh sugg hsh
    subst hsh
    cases sugg with
    | nil => rfl
    | cons a l => simp [ghostText]

/-- Witness for C9 (amended): input "ca" with top suggestion "cat" yields
ghost text "ca" + "t"; input "cal" with no matching top suggestion yields
none. -/
theorem c9_ghost_pure_projection_witness :
    ghostText true ["cat", "car"] "ca" = "ca" ++ jsSlice "cat" "ca".length ∧
    ghostText true ["cat", "car"] "cal" = "" :=
  ⟨((c9_ghost_pure_projection "cat" ["car"] "ca").2.1 (by decide) (by decide)).1,
   (c9_ghost_pure_projection "cat" ["car"] "cal").2.2.1 (Or.inr (by decide))⟩
